import Mathlib

/-!
Verification of the Hathor Forge control-plane frontend (`src/App.tsx`).

The TypeScript handlers are pure state transformers once the asynchronous
backend calls (`invoke(...)`) are abstracted as explicit outcome arguments
(`Except String _`): each handler reads React state, awaits some backend
calls, and writes React state.  We embed them as Lean functions over an
explicit `AppState`, with each `invoke` outcome passed in as an argument,
and embed the pure helpers (`parseLogLevel`, the faucet amount policy)
directly.  Where an event can observably interleave at an await point —
`handleStartMiner` awaits `start_miner` between its node-running guard and
its `setMinerStatus("mining")` write — the handler is embedded as two
transitions, one up to the `invoke` and one for the continuation that runs
when the awaited promise settles.  JavaScript numbers holding balances in minor units are embedded
as `Int` (the frontend only ever receives integral minor-unit balances and
the computations stay far below 2^53, where float arithmetic is exact on
the quantities involved); `toLowerCase` is embedded as per-character ASCII
lowercasing, which agrees with JavaScript on the ASCII log tags involved.
-/

/-! ## Log severity classification (`parseLogLevel`, App.tsx lines 70-76) -/

inductive LogLevel where
  | info
  | warning
  | error
  | debug
deriving DecidableEq, Repr

/-- Embedding of JavaScript `String.prototype.includes`: `hasSub tag l`
is true when `tag` occurs contiguously inside `l`. -/
def hasSub (tag : List Char) : List Char → Bool
  | [] => tag.isEmpty
  | c :: rest => tag.isPrefixOf (c :: rest) || hasSub tag rest

/-- Embedding of `line.toLowerCase()` restricted to ASCII case mapping. -/
def toLowerChars (s : String) : List Char :=
  s.data.map Char.toLower

def hasErrorTag (lower : List Char) : Bool :=
  hasSub "[error]".data lower || hasSub "error:".data lower

def hasWarnTag (lower : List Char) : Bool :=
  hasSub "[warn".data lower || hasSub "warning".data lower

def hasDebugTag (lower : List Char) : Bool :=
  hasSub "[debug]".data lower

/-- Embedding of `parseLogLevel` (App.tsx lines 70-76): case-insensitive
substring tags checked in order error, warning, debug, defaulting to info. -/
def parseLogLevel (line : String) : LogLevel :=
  let lower := toLowerChars line
  if hasErrorTag lower then .error
  else if hasWarnTag lower then .warning
  else if hasDebugTag lower then .debug
  else .info

/-! ## Wallet data model (App.tsx lines 56-63) -/

structure FaucetBalance where
  available : Int
  locked : Int
deriving DecidableEq, Repr

structure HeadlessWallet where
  wallet_id : String
  status : String
  status_code : Option Int
  balance : Option FaucetBalance
  addresses : Option (List String)
  seed : Option String
deriving DecidableEq, Repr

/-- Membership of a wallet id in the locally tracked list. -/
def isTracked (wallets : List HeadlessWallet) (walletId : String) : Bool :=
  wallets.any (fun w => w.wallet_id == walletId)

/-! ## `fundWallet` (App.tsx lines 980-1016) -/

inductive FundOutcome where
  /-- A `setError(...)` path: no transaction is submitted. -/
  | failure (message : String)
  /-- The `invoke("send_tx", ...)` path: a transfer of `amount` minor units
  to `address` is submitted. -/
  | send (address : String) (amount : Int)
deriving DecidableEq, Repr

def noAddressesMsg : String := "Wallet has no addresses. Wait for it to sync."

def fetchFailedMsg : String := "Failed to fetch faucet balance. Try again."

def faucetEmptyMsg : String :=
  "Faucet has no available funds. Wait for blocks to be mined and confirmed."

/-- The `wallet?.addresses` lookup of `fundWallet`: find the tracked wallet
by id and project its (optional) address list. -/
def lookupAddresses (wallets : List HeadlessWallet) (walletId : String) :
    Option (List String) :=
  (wallets.find? (fun w => w.wallet_id == walletId)).bind (fun w => w.addresses)

/-- Embedding of `fundWallet` (App.tsx lines 980-1016).  `freshBalance` is
the outcome of the `get_fullnode_balance` call made right before sending
(`none` when that call fails).  `Math.floor(available * 0.1)` is embedded
as integer division by 10, exact for the integral minor-unit balances the
backend returns. -/
def fundWallet (wallets : List HeadlessWallet) (walletId : String)
    (freshBalance : Option FaucetBalance) : FundOutcome :=
  match lookupAddresses wallets walletId with
  | none => .failure noAddressesMsg
  | some [] => .failure noAddressesMsg
  | some (firstAddress :: _) =>
    match freshBalance with
    | none => .failure fetchFailedMsg
    | some b =>
      if b.available ≤ 0 then .failure faucetEmptyMsg
      else
        let tenPercent := b.available / 10
        let amount := max 100 (min tenPercent 10000)
        .send firstAddress amount

/-- A concrete tracked-wallet list used for closed instances. -/
def demoWallets : List HeadlessWallet :=
  [⟨"w1", "ready", some 3, none, some ["WdemoAddr"], none⟩]

/-- Claim C1: for every positive available faucet balance `a`, `fundWallet`
computes the transfer amount as `max 100 (min (a / 10) 10000)` (10% of the
balance, floored, clamped to `[100, 10000]`); in particular the amount is
1000 at balance 10000 and 100 at balance 50. -/
theorem c1_fund_amount_policy :
    (∀ (ws : List HeadlessWallet) (walletId : String) (b : FaucetBalance)
       (a : String) (rest : List String),
        0 < b.available →
        lookupAddresses ws walletId = some (a :: rest) →
        fundWallet ws walletId (some b) =
          .send a (max 100 (min (b.available / 10) 10000)))
    ∧ fundWallet demoWallets "w1" (some ⟨10000, 0⟩) = .send "WdemoAddr" 1000
    ∧ fundWallet demoWallets "w1" (some ⟨50, 0⟩) = .send "WdemoAddr" 100 := by
  refine ⟨?_, by decide, by decide⟩
  intro ws walletId b a rest hpos hlook
  simp only [fundWallet, hlook]
  rw [if_neg (by omega)]

theorem c1_fund_amount_policy_witness :
    0 < (2500 : Int)
    ∧ lookupAddresses demoWallets "w1" = some ("WdemoAddr" :: [])
    ∧ fundWallet demoWallets "w1" (some ⟨2500, 0⟩) =
        .send "WdemoAddr" (max 100 (min ((2500 : Int) / 10) 10000)) := by
  refine ⟨by decide, by decide, ?_⟩
  exact c1_fund_amount_policy.1 demoWallets "w1" ⟨2500, 0⟩ "WdemoAddr" []
    (by decide) (by decide)

/-- Claim C2: whenever the freshly re-read faucet balance is zero or
negative, `fundWallet` fails with the distinct faucet-empty message (which
tells the caller to wait for blocks to be mined) and submits no transfer;
the faucet-empty message is distinct from the other failure messages. -/
theorem c2_faucet_empty :
    ∀ (ws : List HeadlessWallet) (walletId : String) (b : FaucetBalance)
      (a : String) (rest : List String),
      lookupAddresses ws walletId = some (a :: rest) →
      b.available ≤ 0 →
      fundWallet ws walletId (some b) = .failure faucetEmptyMsg
      ∧ (∀ (addr : String) (amt : Int),
          fundWallet ws walletId (some b) ≠ .send addr amt)
      ∧ faucetEmptyMsg ≠ fetchFailedMsg
      ∧ faucetEmptyMsg ≠ noAddressesMsg := by
  intro ws walletId b a rest hlook hle
  have heq : fundWallet ws walletId (some b) = .failure faucetEmptyMsg := by
    simp only [fundWallet, hlook]
    rw [if_pos hle]
  refine ⟨heq, ?_, by decide, by decide⟩
  intro addr amt hsend
  rw [heq] at hsend
  exact FundOutcome.noConfusion hsend

theorem c2_faucet_empty_witness :
    lookupAddresses demoWallets "w1" = some ("WdemoAddr" :: [])
    ∧ (0 : Int) ≤ 0
    ∧ fundWallet demoWallets "w1" (some ⟨0, 25⟩) = .failure faucetEmptyMsg := by
  refine ⟨by decide, by decide, ?_⟩
  exact (c2_faucet_empty demoWallets "w1" ⟨0, 25⟩ "WdemoAddr" []
    (by decide) (by decide)).1

/-- Claim C10: for every available balance strictly between 0 and 100,
`fundWallet` submits a transfer of exactly 100 minor units, which exceeds
the faucet's available balance. -/
theorem c10_minimum_exceeds_balance :
    ∀ (ws : List HeadlessWallet) (walletId : String) (b : FaucetBalance)
      (a : String) (rest : List String),
      lookupAddresses ws walletId = some (a :: rest) →
      0 < b.available → b.available < 100 →
      fundWallet ws walletId (some b) = .send a 100
      ∧ 100 > b.available := by
  intro ws walletId b a rest hlook hpos hlt
  refine ⟨?_, hlt⟩
  simp only [fundWallet, hlook]
  rw [if_neg (by omega)]
  have hamt : max 100 (min (b.available / 10) 10000) = 100 := by omega
  simp only [hamt]

theorem c10_minimum_exceeds_balance_witness :
    lookupAddresses demoWallets "w1" = some ("WdemoAddr" :: [])
    ∧ (0 : Int) < 7 ∧ (7 : Int) < 100
    ∧ fundWallet demoWallets "w1" (some ⟨7, 0⟩) = .send "WdemoAddr" 100 := by
  refine ⟨by decide, by decide, by decide, ?_⟩
  exact (c10_minimum_exceeds_balance demoWallets "w1" ⟨7, 0⟩ "WdemoAddr" []
    (by decide) (by decide) (by decide)).1

/-- Claim C3: severity classification applies the case-insensitive
substring rules in order (error tags, then warning tags, then the debug
tag, else info); a line containing "[ERROR] connection refused" classifies
as error and a line with no recognizable tag classifies as info. -/
theorem c3_parse_log_level :
    (∀ line : String,
      (hasErrorTag (toLowerChars line) = true → parseLogLevel line = .error)
      ∧ (hasErrorTag (toLowerChars line) = false →
          hasWarnTag (toLowerChars line) = true →
          parseLogLevel line = .warning)
      ∧ (hasErrorTag (toLowerChars line) = false →
          hasWarnTag (toLowerChars line) = false →
          hasDebugTag (toLowerChars line) = true →
          parseLogLevel line = .debug)
      ∧ (hasErrorTag (toLowerChars line) = false →
          hasWarnTag (toLowerChars line) = false →
          hasDebugTag (toLowerChars line) = false →
          parseLogLevel line = .info))
    ∧ parseLogLevel "[ERROR] connection refused" = .error
    ∧ parseLogLevel "new best chain found" = .info := by
  refine ⟨?_, by decide, by decide⟩
  intro line
  refine ⟨?_, ?_, ?_, ?_⟩ <;> intros <;> simp_all [parseLogLevel]

theorem c3_parse_log_level_witness :
    hasErrorTag (toLowerChars "10:32:01 [Error]: peer timeout") = true
    ∧ parseLogLevel "10:32:01 [Error]: peer timeout" = .error := by
  refine ⟨by decide, ?_⟩
  exact (c3_parse_log_level.1 "10:32:01 [Error]: peer timeout").1 (by decide)

/-! ## Application state (App.tsx lines 29-31, 85-93, 756-766) -/

inductive NodeStatusType where
  | stopped
  | starting
  | running
  | error
deriving DecidableEq, Repr

inductive MinerStatusType where
  | stopped
  | starting
  | mining
  | error
deriving DecidableEq, Repr

structure HeadlessStatus where
  running : Bool
  port : Option Nat
deriving DecidableEq, Repr

/-- The React state relevant to service orchestration: node/miner status,
wallet-service status, the locally tracked wallets, and the dashboard
metrics and error banner. -/
structure AppState where
  nodeStatus : NodeStatusType
  minerStatus : MinerStatusType
  headlessStatus : HeadlessStatus
  headlessWallets : List HeadlessWallet
  blockHeight : Nat
  hashRate : String
  errorMsg : Option String
deriving DecidableEq, Repr

def initialState : AppState :=
  ⟨.stopped, .stopped, ⟨false, none⟩, [], 0, "0 H/s", none⟩

/-! ## Event listeners (App.tsx lines 160-216) -/

/-- Embedding of the `node-terminated` listener (App.tsx lines 169-175):
sets both the node and the miner status to stopped and, when the exit code
is neither 0 nor null, records an error banner. -/
def nodeTerminated (s : AppState) (code : Option Int) : AppState :=
  { s with
    nodeStatus := .stopped
    minerStatus := .stopped
    errorMsg :=
      match code with
      | some c => if c ≠ 0 then some ("Node exited with code " ++ toString c) else s.errorMsg
      | none => s.errorMsg }

/-- Embedding of the `miner-terminated` listener (App.tsx lines 192-195). -/
def minerTerminated (s : AppState) : AppState :=
  { s with minerStatus := .stopped, hashRate := "0 H/s" }

/-- Embedding of the `headless-terminated` listener (App.tsx lines 201-204). -/
def headlessTerminated (s : AppState) : AppState :=
  { s with headlessStatus := ⟨false, none⟩, headlessWallets := [] }

/-! ## Service control handlers (App.tsx lines 218-280, 835-852) -/

/-- Embedding of `handleStartNode` (App.tsx lines 218-241).  The two
arguments are the outcomes of the awaited `start_node` and `start_headless`
backend calls; the explorer auto-start only logs a console warning on
failure and touches no state, so its outcome is omitted. -/
def handleStartNode (s : AppState)
    (startNodeRes startHeadlessRes : Except String Unit) : AppState :=
  match startNodeRes with
  | .error e => { s with errorMsg := some e, nodeStatus := .error }
  | .ok _ =>
    let s1 := { s with errorMsg := none, nodeStatus := .running }
    match startHeadlessRes with
    | .ok _ => { s1 with headlessStatus := ⟨true, some 8001⟩ }
    | .error _ => s1

/-- Embedding of `handleStopMiner` (App.tsx lines 272-280). -/
def handleStopMiner (s : AppState) (stopMinerRes : Except String Unit) : AppState :=
  match stopMinerRes with
  | .ok _ => { s with minerStatus := .stopped, hashRate := "0 H/s" }
  | .error e => { s with errorMsg := some e }

/-- Embedding of `startHeadless` (App.tsx lines 835-842). -/
def startHeadless (s : AppState) (res : Except String Unit) : AppState :=
  match res with
  | .ok _ => { s with headlessStatus := ⟨true, some 8001⟩ }
  | .error e => { s with errorMsg := some e }

/-- Embedding of `stopHeadless` (App.tsx lines 844-852). -/
def stopHeadless (s : AppState) (res : Except String Unit) : AppState :=
  match res with
  | .ok _ => { s with headlessStatus := ⟨false, none⟩, headlessWallets := [] }
  | .error e => { s with errorMsg := some e }

/-! ## `handleStopNode` (App.tsx lines 243-258) -/

inductive BackendCall where
  | stop_miner
  | stop_headless
  | stop_explorer
  | stop_node
deriving DecidableEq, Repr

/-- Sequential execution of a list of backend calls, each flagged with
whether its rejection is caught (`await invoke(c).catch(() => {})`).  The
result is the list of calls actually issued and, for an uncaught
rejection, the error that aborted the sequence. -/
def runCalls (res : BackendCall → Except String Unit) :
    List (BackendCall × Bool) → List BackendCall × Option String
  | [] => ([], none)
  | (c, caught) :: rest =>
    match res c, caught with
    | .ok _, _ =>
      let (l, e) := runCalls res rest
      (c :: l, e)
    | .error _, true =>
      let (l, e) := runCalls res rest
      (c :: l, e)
    | .error e, false => ([c], some e)

/-- The call sequence of `handleStopNode`: the three dependent stops each
carry an empty catch handler; only `stop_node` is uncaught. -/
def stopNodeProgram : List (BackendCall × Bool) :=
  [(.stop_miner, true), (.stop_headless, true), (.stop_explorer, true), (.stop_node, false)]

/-- Embedding of `handleStopNode` (App.tsx lines 243-258): best-effort stop
of miner, wallet service and explorer, then the node stop; on success all
statuses and metrics are reset, on an uncaught failure only the error
banner is set. -/
def handleStopNode (s : AppState) (res : BackendCall → Except String Unit) :
    AppState × List BackendCall :=
  match runCalls res stopNodeProgram with
  | (calls, none) =>
    ({ s with
        nodeStatus := .stopped
        minerStatus := .stopped
        headlessStatus := ⟨false, none⟩
        headlessWallets := []
        blockHeight := 0
        hashRate := "0 H/s" }, calls)
  | (calls, some e) => ({ s with errorMsg := some e }, calls)

/-! ## Wallet lifecycle handlers (App.tsx lines 864-904, 954-961) -/

structure CreateOutcome where
  wallets : List HeadlessWallet
  callIssued : Bool
  errorMsg : Option String
deriving DecidableEq, Repr

def missingFieldsMsg : String := "Please provide wallet ID and seed phrase"

/-- Embedding of `createWallet` (App.tsx lines 864-904).  `seed` is the
resolved `newSeed || importSeed` value; `remote` is the outcome of the
awaited `create_headless_wallet` call.  An empty id or seed is rejected
before any backend call; otherwise the call is issued and, on success, a
new tracked entry (status "starting", seed kept in memory) is appended. -/
def createWallet (wallets : List HeadlessWallet) (newWalletId seed : String)
    (remote : Except String Unit) : CreateOutcome :=
  if seed = "" ∨ newWalletId = "" then ⟨wallets, false, some missingFieldsMsg⟩
  else
    match remote with
    | .ok _ => ⟨wallets ++ [⟨newWalletId, "starting", none, none, none, some seed⟩], true, none⟩
    | .error e => ⟨wallets, true, some e⟩

structure CloseOutcome where
  wallets : List HeadlessWallet
  errorMsg : Option String
deriving DecidableEq, Repr

/-- Embedding of `closeWallet` (App.tsx lines 954-961): the local filter
removing the wallet runs after the awaited `close_headless_wallet` call
inside the `try` block, so it is reached only when the remote call
succeeds; a rejection jumps to the `catch`, leaving the list untouched. -/
def closeWallet (wallets : List HeadlessWallet) (walletId : String)
    (remote : Except String Unit) : CloseOutcome :=
  match remote with
  | .ok _ => ⟨wallets.filter (fun w => w.wallet_id != walletId), none⟩
  | .error e => ⟨wallets, some e⟩

/-! ## `handleResetData` (App.tsx lines 575-592) -/

inductive ResetStatus where
  | idle
  | resetting
  | success
  | error
deriving DecidableEq, Repr

structure ResetOutcome where
  callIssued : Bool
  resetStatus : ResetStatus
  resetMessage : String
deriving DecidableEq, Repr

def stopNodeFirstMsg : String := "Stop the node before resetting data"

/-- Embedding of `handleResetData` (App.tsx lines 575-592): refuses, with
no backend call, exactly when the node status is `running`; in every other
status the `reset_data` call is issued and its outcome reported. -/
def handleResetData (s : AppState) (remote : Except String String) : ResetOutcome :=
  if s.nodeStatus = .running then ⟨false, .error, stopNodeFirstMsg⟩
  else
    match remote with
    | .ok result => ⟨true, .success, result⟩
    | .error e => ⟨true, .error, e⟩

/-! ## The frontend as a transition system

Each handler and backend event becomes transitions of a sequential
event-loop model, parameterised by the outcomes of the backend calls it
awaits.  `handleStartMiner` (App.tsx lines 260-270) is not embedded as one
atomic transition, because its `await invoke("start_miner")` sits between
the node-running guard (with `setMinerStatus("starting")`) and the
`setMinerStatus("mining")` write, and other events — in particular
`node-terminated` — can be delivered during that await.  It is therefore
split into a begin transition (the synchronous prefix up to and including
the `invoke`, recording the now in-flight promise) and a resolve
transition (the continuation that runs when that promise settles),
with the number of in-flight `start_miner` awaits carried next to the
React state.  Handlers that the UI only renders under a status condition
carry that condition as an enabling guard (the event leaves the state
unchanged when its button is not rendered): the start-network buttons only
render while the node status is not `running` (App.tsx lines 319, 527),
and the wallet page with its start/stop service buttons only renders while
it is `running` (App.tsx line 1027). -/

structure SysState where
  /-- The React state. -/
  app : AppState
  /-- The number of `handleStartMiner` invocations currently suspended on
  `await invoke("start_miner")`. -/
  minerStartPending : Nat
deriving DecidableEq, Repr

def initialSys : SysState := ⟨initialState, 0⟩

/-- The synchronous prefix of `handleStartMiner` (App.tsx lines 260-264):
returns immediately — no backend call, no state change — unless the node
status is running; otherwise sets the miner status to starting and issues
the `start_miner` call, which is now in flight. -/
def handleStartMinerBegin (s : SysState) : SysState :=
  if s.app.nodeStatus ≠ .running then s
  else ⟨{ s.app with minerStatus := .starting }, s.minerStartPending + 1⟩

/-- The continuation of `handleStartMiner` after `await invoke`
(App.tsx lines 265-269): when a `start_miner` call is in flight, its
settlement sets the miner status to mining on success and to error (with
the error banner) on rejection — without re-checking the node status. -/
def handleStartMinerResolve (s : SysState) (res : Except String Unit) : SysState :=
  match s.minerStartPending with
  | 0 => s
  | n + 1 =>
    match res with
    | .ok _ => ⟨{ s.app with minerStatus := .mining }, n⟩
    | .error e => ⟨{ s.app with minerStatus := .error, errorMsg := some e }, n⟩

inductive Ev where
  | startNode (node headless : Except String Unit)
  | stopNode (res : BackendCall → Except String Unit)
  | startMinerBegin
  | startMinerResolve (res : Except String Unit)
  | stopMiner (res : Except String Unit)
  | startHeadlessSvc (res : Except String Unit)
  | stopHeadlessSvc (res : Except String Unit)
  | nodeExit (code : Option Int)
  | minerExit
  | headlessExit

def step (s : SysState) : Ev → SysState
  | .startNode node headless =>
    if s.app.nodeStatus = .running then s
    else ⟨handleStartNode s.app node headless, s.minerStartPending⟩
  | .stopNode res => ⟨(handleStopNode s.app res).1, s.minerStartPending⟩
  | .startMinerBegin => handleStartMinerBegin s
  | .startMinerResolve res => handleStartMinerResolve s res
  | .stopMiner res => ⟨handleStopMiner s.app res, s.minerStartPending⟩
  | .startHeadlessSvc res =>
    if s.app.nodeStatus = .running then ⟨startHeadless s.app res, s.minerStartPending⟩ else s
  | .stopHeadlessSvc res =>
    if s.app.nodeStatus = .running then ⟨stopHeadless s.app res, s.minerStartPending⟩ else s
  | .nodeExit code => ⟨nodeTerminated s.app code, s.minerStartPending⟩
  | .minerExit => ⟨minerTerminated s.app, s.minerStartPending⟩
  | .headlessExit => ⟨headlessTerminated s.app, s.minerStartPending⟩

/-- System states reachable from the initial state by a sequence of
events. -/
def runSys (events : List Ev) : SysState :=
  events.foldl step initialSys

/-- The React state reached from the initial state by a sequence of
events. -/
def run (events : List Ev) : AppState :=
  (runSys events).app

/-- A state with the node running and the miner mining, as after a
successful start of both. -/
def runningState : AppState :=
  { initialState with nodeStatus := .running, minerStatus := .mining, hashRate := "5 kH/s" }

/-! ## Claims C4 and C5: wallet lifecycle -/

/-- Claim C4 counterexample: when the remote `close_headless_wallet` call
fails, `closeWallet` leaves the wallet locally tracked — the local removal
is not performed "regardless of whether the remote close call succeeds or
fails". -/
theorem c4_close_wallet_counterexample :
    isTracked demoWallets "w1" = true
    ∧ (closeWallet demoWallets "w1" (Except.error "connection refused")).wallets = demoWallets
    ∧ isTracked (closeWallet demoWallets "w1" (Except.error "connection refused")).wallets "w1"
        = true := by
  decide

/-- Claim C4 (amended): `closeWallet` removes the wallet from the local
tracked list only when the remote close call succeeds; when the remote
call fails the list is left unchanged (the wallet stays tracked) and the
error is surfaced. -/
theorem c4_close_wallet_amended :
    ∀ (ws : List HeadlessWallet) (walletId : String),
      (∀ u : Unit,
        isTracked (closeWallet ws walletId (.ok u)).wallets walletId = false)
      ∧ (∀ e : String,
          (closeWallet ws walletId (.error e)).wallets = ws
          ∧ (closeWallet ws walletId (.error e)).errorMsg = some e) := by
  intro ws walletId
  constructor
  · intro u
    simp only [closeWallet, isTracked]
    rw [Bool.eq_false_iff]
    intro hany
    obtain ⟨w, hw, hww⟩ := List.any_eq_true.mp hany
    rw [List.mem_filter] at hw
    exact absurd (by simpa using hww) (by simpa using hw.2)
  · intro e
    exact ⟨rfl, rfl⟩

theorem c4_close_wallet_amended_witness :
    isTracked (closeWallet demoWallets "w1" (Except.ok ())).wallets "w1" = false :=
  (c4_close_wallet_amended demoWallets "w1").1 ()

/-- Claim C5 counterexample: `createWallet` performs no local duplicate-id
check — called with the already-tracked id "w1" (and a nonempty seed) it
still issues the creation call, and on remote success it changes the local
list by appending a second entry. -/
theorem c5_create_wallet_counterexample :
    isTracked demoWallets "w1" = true
    ∧ (createWallet demoWallets "w1" "word list seed" (Except.ok ())).callIssued = true
    ∧ (createWallet demoWallets "w1" "word list seed" (Except.ok ())).wallets
        ≠ demoWallets := by
  decide

/-- Claim C5 (amended): `createWallet` rejects synchronously (no backend
call, list unchanged) only when the id or the seed is empty; for any other
id — already tracked or not — the creation call is issued, the entry is
appended on remote success (even if the id was already tracked) and the
list is unchanged with the error surfaced on remote failure. -/
theorem c5_create_wallet_amended :
    ∀ (ws : List HeadlessWallet) (walletId seed : String) (remote : Except String Unit),
      (seed = "" ∨ walletId = "" →
        createWallet ws walletId seed remote = ⟨ws, false, some missingFieldsMsg⟩)
      ∧ (seed ≠ "" → walletId ≠ "" →
          (createWallet ws walletId seed remote).callIssued = true
          ∧ (∀ u : Unit, remote = .ok u →
              (createWallet ws walletId seed remote).wallets =
                ws ++ [⟨walletId, "starting", none, none, none, some seed⟩])
          ∧ (∀ e : String, remote = .error e →
              (createWallet ws walletId seed remote).wallets = ws
              ∧ (createWallet ws walletId seed remote).errorMsg = some e)) := by
  intro ws walletId seed remote
  constructor
  · intro h
    simp [createWallet, h]
  · intro hs hw
    have hcond : ¬(seed = "" ∨ walletId = "") := by
      rintro (h | h)
      · exact hs h
      · exact hw h
    refine ⟨?_, ?_, ?_⟩
    · cases remote <;> simp [createWallet, hcond]
    · rintro u rfl
      simp [createWallet, hcond]
    · rintro e rfl
      simp [createWallet, hcond]

theorem c5_create_wallet_amended_witness :
    (createWallet demoWallets "w1" "word list seed" (Except.error "duplicate")).wallets
      = demoWallets
    ∧ (createWallet demoWallets "w1" "word list seed" (Except.error "duplicate")).errorMsg
      = some "duplicate" :=
  ((c5_create_wallet_amended demoWallets "w1" "word list seed"
      (Except.error "duplicate")).2 (by decide) (by decide)).2.2 "duplicate" rfl

/-! ## Claim C6: node process exit -/

/-- Claim C6 counterexample: a non-graceful node exit (code 1) leaves the
node status `stopped`, not `error` — the listener sets `stopped`
unconditionally. -/
theorem c6_node_exit_counterexample :
    (nodeTerminated runningState (some 1)).nodeStatus = .stopped
    ∧ (nodeTerminated runningState (some 1)).nodeStatus ≠ .error := by
  decide

/-- Claim C6 (amended): on every node process-exit event the node status
transitions to `stopped` regardless of the exit code (and the miner status
with it); a non-graceful exit (code neither 0 nor null) additionally
records an error banner naming the exit code, but the status is still
`stopped`. -/
theorem c6_node_exit_amended :
    ∀ (s : AppState) (code : Option Int),
      (nodeTerminated s code).nodeStatus = .stopped
      ∧ (nodeTerminated s code).minerStatus = .stopped
      ∧ (∀ c : Int, code = some c → c ≠ 0 →
          (nodeTerminated s code).errorMsg =
            some ("Node exited with code " ++ toString c)) := by
  intro s code
  refine ⟨rfl, rfl, ?_⟩
  rintro c rfl hne
  simp [nodeTerminated, hne]

theorem c6_node_exit_amended_witness :
    (nodeTerminated runningState (some 137)).nodeStatus = .stopped
    ∧ (nodeTerminated runningState (some 137)).errorMsg =
        some "Node exited with code 137" := by
  refine ⟨(c6_node_exit_amended runningState (some 137)).1, ?_⟩
  have h := (c6_node_exit_amended runningState (some 137)).2.2 137 rfl (by decide)
  simpa using h

/-! ## Claim C7: miner/node dependency invariant -/

/-- Claim C7 counterexample: after a successful start of node and wallet
service followed by an unexpected node exit, the node is stopped but the
wallet service is still marked running — the node-terminated listener
transitions the miner, not the wallet service, so the "no dependent
running while the node is not running" invariant fails for the wallet
service. -/
theorem c7_wallet_service_counterexample :
    (run [Ev.startNode (Except.ok ()) (Except.ok ()), Ev.nodeExit (some 1)]).nodeStatus
      = NodeStatusType.stopped
    ∧ (run [Ev.startNode (Except.ok ()) (Except.ok ()), Ev.nodeExit (some 1)]).headlessStatus.running
      = true := by
  decide

/-- Claim C7 (amended): starting the miner is refused synchronously (no
backend call, no state change) while the node is not running, and a node
process-exit event transitions the miner — but not the wallet-service
indicator — to stopped at the instant it fires; neither dependent obeys a
reachable-state invariant, because the wallet service can remain marked
running after an unexpected node exit, and a `start_miner` call that was
in flight when the node exited re-marks the miner as mining, with the node
stopped, when its promise resolves. -/
theorem c7_miner_node_dependency :
    (∀ s : SysState,
        s.app.nodeStatus ≠ .running → handleStartMinerBegin s = s)
    ∧ (∀ (s : AppState) (code : Option Int),
        (nodeTerminated s code).minerStatus = .stopped
        ∧ (nodeTerminated s code).headlessStatus = s.headlessStatus)
    ∧ ((runSys [Ev.startNode (Except.ok ()) (Except.ok ()), Ev.startMinerBegin,
          Ev.nodeExit (some 1), Ev.startMinerResolve (Except.ok ())]).app.minerStatus
        = MinerStatusType.mining
       ∧ (runSys [Ev.startNode (Except.ok ()) (Except.ok ()), Ev.startMinerBegin,
          Ev.nodeExit (some 1), Ev.startMinerResolve (Except.ok ())]).app.nodeStatus
        = NodeStatusType.stopped) := by
  refine ⟨?_, ?_, by decide, by decide⟩
  · intro s h
    simp [handleStartMinerBegin, h]
  · intro s code
    exact ⟨rfl, rfl⟩

theorem c7_miner_node_dependency_witness :
    initialSys.app.nodeStatus ≠ NodeStatusType.running
    ∧ handleStartMinerBegin initialSys = initialSys := by
  refine ⟨by decide, ?_⟩
  exact c7_miner_node_dependency.1 initialSys (by decide)

/-! ## Claim C8: cascading stop order -/

/-- Claim C8: `handleStopNode` issues the backend calls in the order
miner stop, wallet-service stop, explorer stop, node stop, whatever each
call's outcome; since the three dependent stops each carry an empty catch
handler, the node stop is always reached. -/
theorem c8_stop_node_order :
    ∀ (s : AppState) (res : BackendCall → Except String Unit),
      (handleStopNode s res).2 =
        [BackendCall.stop_miner, BackendCall.stop_headless,
         BackendCall.stop_explorer, BackendCall.stop_node]
      ∧ BackendCall.stop_node ∈ (handleStopNode s res).2 := by
  intro s res
  have hsnd : (handleStopNode s res).2 = (runCalls res stopNodeProgram).1 := by
    unfold handleStopNode
    cases hrc : runCalls res stopNodeProgram with
    | mk calls err => cases err <;> rfl
  have hcalls : (runCalls res stopNodeProgram).1 =
      [BackendCall.stop_miner, BackendCall.stop_headless,
       BackendCall.stop_explorer, BackendCall.stop_node] := by
    cases h1 : res .stop_miner <;> cases h2 : res .stop_headless <;>
      cases h3 : res .stop_explorer <;> cases h4 : res .stop_node <;>
      simp [runCalls, stopNodeProgram, h1, h2, h3, h4]
  rw [hsnd, hcalls]
  exact ⟨rfl, by simp⟩

theorem c8_stop_node_order_witness :
    (handleStopNode runningState (fun _ => Except.error "ECONNREFUSED")).2 =
      [BackendCall.stop_miner, BackendCall.stop_headless,
       BackendCall.stop_explorer, BackendCall.stop_node] :=
  (c8_stop_node_order runningState (fun _ => Except.error "ECONNREFUSED")).1

/-! ## Claim C9: reset gating -/

/-- Claim C9 counterexample: `handleResetData` only refuses while the node
status is exactly `running`.  With the node `starting` the reset call is
issued, and in the reachable state where the node has exited unexpectedly
while the wallet service is still marked running, the reset call is issued
as well — not every-service-stopped is required. -/
theorem c9_reset_data_counterexample :
    (handleResetData { initialState with nodeStatus := .starting }
        (Except.ok "Data reset successfully")).callIssued = true
    ∧ (run [Ev.startNode (Except.ok ()) (Except.ok ()), Ev.nodeExit (some 1)]).headlessStatus.running
        = true
    ∧ (handleResetData (run [Ev.startNode (Except.ok ()) (Except.ok ()), Ev.nodeExit (some 1)])
        (Except.ok "Data reset successfully")).callIssued = true := by
  decide

/-- Claim C9 (amended): `handleResetData` refuses — with the message
"Stop the node before resetting data" and no backend call — exactly when
the node status is `running`; in every other node status (including
`starting`, and regardless of the miner and wallet-service states) the
`reset_data` call is issued and its outcome reported. -/
theorem c9_reset_data_amended :
    ∀ (s : AppState) (remote : Except String String),
      (s.nodeStatus = .running →
        handleResetData s remote = ⟨false, .error, stopNodeFirstMsg⟩)
      ∧ (s.nodeStatus ≠ .running → (handleResetData s remote).callIssued = true) := by
  intro s remote
  constructor
  · intro h
    simp [handleResetData, h]
  · intro h
    cases remote <;> simp [handleResetData, h]

theorem c9_reset_data_amended_witness :
    (handleResetData { initialState with nodeStatus := NodeStatusType.error }
        (Except.error "failed to remove data dir")).callIssued = true :=
  (c9_reset_data_amended { initialState with nodeStatus := NodeStatusType.error }
      (Except.error "failed to remove data dir")).2 (by decide)
